import Mathlib

/-!
Verification of the Basic Maths MCP Server (`src/server.py`).

The server exposes five arithmetic tools (add, subtract, multiply, divide,
power) over FastMCP.  Each tool receives two machine integers, computes one
operation, and on any exception executes `raise _handle_api_error(e)`.
This file embeds the validation/evaluation core of `server.py` shallowly:
Python ints become `Int`, Python exceptions become an explicit error type,
a tool invocation yields an explicit outcome (returned value, returned
structured error, or raised object).
-/

deriving instance DecidableEq for Except

/-- A Python exception as observed by the handlers: its class name and the
string produced by `str(e)`. -/
structure PyExn where
  ty : String
  msg : String
deriving DecidableEq, Repr

/-- Embeds the pydantic model `ErrorResponse` of `server.py`
(fields `error : str` and `details : Optional[str] = None`). -/
structure ErrorResponse where
  error : String
  details : Option String := none
deriving DecidableEq, Repr

/-- A Python numeric value flowing out of the arithmetic: either an `int`
or a `float`.  The only `float`s the server can produce come from
`a ** b` with `b < 0`; CPython evaluates that as `float(a) ** float(b)`.
The embedding records the exact rational value of that power; at every
concrete input used below (small powers of two) the IEEE-double
computation of CPython is exact, so the rational equals the float. -/
inductive PyNumber where
  | intVal (i : Int)
  | floatVal (q : ℚ)
deriving DecidableEq, Repr

/-- Outcome of one tool invocation, as seen by the caller of the tool
function.  Python is dynamically typed, so a tool body could either
`return` a number, `return` an `ErrorResponse` object, or `raise`.
`raised e` records that the body executed `raise` on the `ErrorResponse`
`e` (as `raise _handle_api_error(e)` does).  Note that in CPython this
raise itself faults with `TypeError` because `ErrorResponse` is a pydantic
model, not a `BaseException`; the embedding keeps the payload that the
code attempted to raise. -/
inductive ToolOutcome where
  | value (v : PyNumber)
  | payload (e : ErrorResponse)
  | raised (e : ErrorResponse)
deriving DecidableEq, Repr

/-- `CHARACTER_LIMIT = 1000` from `server.py`. -/
def CHARACTER_LIMIT : Int := 1000

/-- Embeds `_make_api_request(operation, a, b)`: dispatch on the operation
name; `a // b` is Python floor division, which raises `ZeroDivisionError`
("integer division or modulo by zero") when `b == 0`; any other operation
name raises `ValueError("Unknown operation")`. -/
def _make_api_request (operation : String) (a b : Int) : Except PyExn Int :=
  if operation = "add" then .ok (a + b)
  else if operation = "subtract" then .ok (a - b)
  else if operation = "multiply" then .ok (a * b)
  else if operation = "divide" then
    if b = 0 then .error ⟨"ZeroDivisionError", "integer division or modulo by zero"⟩
    else .ok (Int.fdiv a b)
  else .error ⟨"ValueError", "Unknown operation"⟩

/-- Embeds `_handle_api_error(error)`:
`ErrorResponse(error=str(error), details="An error occurred during computation")`. -/
def _handle_api_error (e : PyExn) : ErrorResponse :=
  { error := e.msg, details := some "An error occurred during computation" }

/-- Embeds `maths_add_numbers`: `try: return _make_api_request("add", a, b)`
with `except Exception as e: raise _handle_api_error(e)`. -/
def maths_add_numbers (a b : Int) : ToolOutcome :=
  match _make_api_request "add" a b with
  | .ok r => .value (.intVal r)
  | .error e => .raised (_handle_api_error e)

/-- Embeds `maths_subtract_numbers`: same boundary as `maths_add_numbers`,
operation `"subtract"`. -/
def maths_subtract_numbers (a b : Int) : ToolOutcome :=
  match _make_api_request "subtract" a b with
  | .ok r => .value (.intVal r)
  | .error e => .raised (_handle_api_error e)

/-- Embeds `maths_multiply_numbers`: same boundary, operation `"multiply"`. -/
def maths_multiply_numbers (a b : Int) : ToolOutcome :=
  match _make_api_request "multiply" a b with
  | .ok r => .value (.intVal r)
  | .error e => .raised (_handle_api_error e)

/-- Embeds `maths_divide_numbers`: same boundary, operation `"divide"`. -/
def maths_divide_numbers (a b : Int) : ToolOutcome :=
  match _make_api_request "divide" a b with
  | .ok r => .value (.intVal r)
  | .error e => .raised (_handle_api_error e)

/-- Embeds the expression `a ** b` of `maths_power_numbers` under CPython
semantics for two ints: for `b ≥ 0` the exact integer power; for `b < 0`
CPython computes `float(a) ** float(b)`, which raises
`ZeroDivisionError` when `a == 0` and otherwise yields the float
`1 / a^|b|` (recorded here as the exact rational `((a : ℚ) ^ b.natAbs)⁻¹`). -/
def pyPow (a b : Int) : Except PyExn PyNumber :=
  if 0 ≤ b then .ok (.intVal (a ^ b.toNat))
  else if a = 0 then .error ⟨"ZeroDivisionError", "0.0 cannot be raised to a negative power"⟩
  else .ok (.floatVal (((a : ℚ) ^ b.natAbs)⁻¹))

/-- The comparison `result > CHARACTER_LIMIT` of `maths_power_numbers`;
Python compares an `int` or `float` result with the `int` limit. -/
def PyNumber.gtLimit (v : PyNumber) (limit : Int) : Bool :=
  match v with
  | .intVal i => limit < i
  | .floatVal q => (limit : ℚ) < q

/-- Embeds `maths_power_numbers`: compute `a ** b`; raise
`ValueError("Result exceeds character limit")` when the result exceeds
`CHARACTER_LIMIT`; on any exception `raise _handle_api_error(e)`. -/
def maths_power_numbers (a b : Int) : ToolOutcome :=
  match pyPow a b with
  | .error e => .raised (_handle_api_error e)
  | .ok r =>
    if r.gtLimit CHARACTER_LIMIT then
      .raised (_handle_api_error ⟨"ValueError", "Result exceeds character limit"⟩)
    else .value r

/-- Embeds the pydantic model `MathsResult` of `server.py` (fields
`result : int`, `operation : str`).  It is declared in the source but
never instantiated by any tool function. -/
structure MathsResult where
  result : Int
  operation : String
deriving DecidableEq, Repr

/-- Embeds the `model_validator` `MathsResult.validate_result`: raises
`ValueError("Result exceeds character limit")` when `result > CHARACTER_LIMIT`,
otherwise returns the model unchanged. -/
def MathsResult.validate_result (m : MathsResult) : Except PyExn MathsResult :=
  if m.result > CHARACTER_LIMIT then .error ⟨"ValueError", "Result exceeds character limit"⟩
  else .ok m

/-- Embeds the `field_validator` `DivisionInput.validate_divisor`: raises
`ValueError("Division by zero is not allowed")` when the divisor is `0`.
Like `MathsResult`, the `DivisionInput` model is declared in the source
but never used by any tool function. -/
def DivisionInput.validate_divisor (v : Int) : Except PyExn Int :=
  if v = 0 then .error ⟨"ValueError", "Division by zero is not allowed"⟩
  else .ok v

/-- The five tools registered on the FastMCP server. -/
inductive ToolName where
  | add | subtract | multiply | divide | power
deriving DecidableEq, Repr

/-- One tool invocation: dispatches to the tool function registered under
the given name.  Each invocation is a pure function of the tool name and
the two operands; the source functions read only the module constant
`CHARACTER_LIMIT` and touch no mutable state. -/
def invokeTool : ToolName → Int → Int → ToolOutcome
  | .add, a, b => maths_add_numbers a b
  | .subtract, a, b => maths_subtract_numbers a b
  | .multiply, a, b => maths_multiply_numbers a b
  | .divide, a, b => maths_divide_numbers a b
  | .power, a, b => maths_power_numbers a b

/-- Flooring division is invariant under negating both arguments. -/
theorem fdiv_neg_neg (a b : Int) : Int.fdiv (-a) (-b) = Int.fdiv a b := by
  rcases a with (_ | m) | m <;> rcases b with (_ | n) | n <;>
    first
    | rfl
    | (show (0 : Int) = Int.ofNat ((m + 1) / 0); rw [Nat.div_zero]; rfl)
    | (show Int.ofNat ((m + 1) / 0) = (0 : Int); rw [Nat.div_zero]; rfl)

/-- Euclidean division by a positive divisor computes the floor of the
exact rational quotient. -/
theorem ediv_eq_floor (a : Int) {b : Int} (hb : 0 < b) : a / b = ⌊(a : ℚ) / (b : ℚ)⌋ := by
  have hd : ((b.toNat : ℕ) : ℤ) = b := Int.toNat_of_nonneg hb.le
  have hq : ((b.toNat : ℕ) : ℚ) = (b : ℚ) := by
    exact_mod_cast congrArg (fun z : ℤ => (z : ℚ)) hd
  have h := Rat.floor_intCast_div_natCast a b.toNat
  rw [hd, hq] at h
  exact h.symm

/-- Python's `//` (flooring division, `Int.fdiv`) computes the floor of the
exact rational quotient, for any nonzero divisor. -/
theorem fdiv_eq_floor (a : Int) {b : Int} (hb : b ≠ 0) : Int.fdiv a b = ⌊(a : ℚ) / (b : ℚ)⌋ := by
  rcases hb.lt_or_lt with hneg | hpos
  · have h2 : 0 < -b := by omega
    rw [← fdiv_neg_neg a b, Int.fdiv_eq_ediv _ h2.le, ediv_eq_floor _ h2]
    congr 1
    push_cast
    rw [neg_div_neg_eq]
  · rw [Int.fdiv_eq_ediv _ hpos.le, ediv_eq_floor _ hpos]

/-- On the `"divide"` operation with a nonzero divisor, the evaluator
returns Python's floor quotient. -/
theorem make_api_request_divide (a b : Int) (hb : b ≠ 0) :
    _make_api_request "divide" a b = .ok (Int.fdiv a b) := by
  simp [_make_api_request, hb]

/-- With a nonnegative exponent whose integer power stays within the cap,
`maths_power_numbers` returns that power as a value. -/
theorem power_value_of_le (a b : Int) (hb : 0 ≤ b) (h : a ^ b.toNat ≤ 1000) :
    maths_power_numbers a b = .value (.intVal (a ^ b.toNat)) := by
  simp [maths_power_numbers, pyPow, hb, PyNumber.gtLimit, CHARACTER_LIMIT, Int.not_lt.mpr h]

/-- With a nonnegative exponent whose integer power exceeds the cap,
`maths_power_numbers` raises the "Result exceeds character limit" error. -/
theorem power_raised_of_gt (a b : Int) (hb : 0 ≤ b) (h : 1000 < a ^ b.toNat) :
    maths_power_numbers a b =
      .raised ⟨"Result exceeds character limit", some "An error occurred during computation"⟩ := by
  simp [maths_power_numbers, pyPow, hb, PyNumber.gtLimit, CHARACTER_LIMIT, h, _handle_api_error]

/-- Claim C1, counterexample: `add(500, 501)` returns the value `1001`
rather than the ResultTooLarge error the claim requires, because no result
cap is applied in `maths_add_numbers`. -/
theorem C1_counterexample_add_500_501 :
    maths_add_numbers 500 501 = ToolOutcome.value (PyNumber.intVal 1001) := by
  decide

/-- Claim C1 (amended): `add`, `subtract` and `multiply` return the exact
sum, difference and product for all integers, with no magnitude cap
(`add(500, 501)` returns `1001`); the 1000 cap is applied only by the
`power` tool. -/
theorem C1_add_subtract_multiply_uncapped :
    (∀ a b : Int,
      maths_add_numbers a b = .value (.intVal (a + b)) ∧
      maths_subtract_numbers a b = .value (.intVal (a - b)) ∧
      maths_multiply_numbers a b = .value (.intVal (a * b))) ∧
    maths_add_numbers 500 501 = .value (.intVal 1001) ∧
    maths_power_numbers 2 10 =
      .raised ⟨"Result exceeds character limit", some "An error occurred during computation"⟩ := by
  refine ⟨fun a b => ⟨?_, ?_, ?_⟩, by decide, by decide⟩ <;>
    simp [maths_add_numbers, maths_subtract_numbers, maths_multiply_numbers, _make_api_request]

/-- Claim C2, code bug witness: on a failing invocation (here
`divide(1, 0)`) the tool body executes `raise _handle_api_error(e)` — it
raises the constructed `ErrorResponse` rather than returning it, so the
caller receives a raised fault, not a returned structured payload (and in
CPython this raise itself faults with `TypeError`, since `ErrorResponse`
is a pydantic model, not a `BaseException`). -/
theorem C2_error_is_raised_not_returned :
    maths_divide_numbers 1 0 =
      .raised ⟨"integer division or modulo by zero", some "An error occurred during computation"⟩ := by
  decide

/-- Claim C3, counterexample: `divide(5, 0)` fails with the interpreter's
ZeroDivisionError message "integer division or modulo by zero", not the
claimed message "Division by zero is not allowed" (the `DivisionInput`
validator carrying that message is never invoked). -/
theorem C3_counterexample_divide_message :
    maths_divide_numbers 5 0 =
      .raised ⟨"integer division or modulo by zero", some "An error occurred during computation"⟩ ∧
    "integer division or modulo by zero" ≠ "Division by zero is not allowed" :=
  ⟨by decide, by decide⟩

/-- Claim C3 (amended): for every integer `a`, `divide(a, 0)` always fails
and never yields a numeric result, but the failure message is
ZeroDivisionError's "integer division or modulo by zero"; the message
"Division by zero is not allowed" lives only in the unused
`DivisionInput.validate_divisor`. -/
theorem C3_divide_by_zero_always_fails :
    (∀ a : Int,
      maths_divide_numbers a 0 =
        .raised ⟨"integer division or modulo by zero", some "An error occurred during computation"⟩) ∧
    DivisionInput.validate_divisor 0 = .error ⟨"ValueError", "Division by zero is not allowed"⟩ := by
  refine ⟨fun a => ?_, by decide⟩
  simp [maths_divide_numbers, _make_api_request, _handle_api_error]

/-- Claim C4: for every integer `a` and nonzero integer `b`,
`divide(a, b)` returns the floor (toward negative infinity) of the exact
rational quotient `a / b`; in particular `divide(7, 2) = 3` and
`divide(-7, 2) = -4`. -/
theorem C4_divide_floor_semantics :
    (∀ a b : Int, b ≠ 0 →
      maths_divide_numbers a b = .value (.intVal ⌊(a : ℚ) / (b : ℚ)⌋)) ∧
    maths_divide_numbers 7 2 = .value (.intVal 3) ∧
    maths_divide_numbers (-7) 2 = .value (.intVal (-4)) := by
  refine ⟨fun a b hb => ?_, by decide, by decide⟩
  simp only [maths_divide_numbers, make_api_request_divide a b hb, fdiv_eq_floor a hb]

/-- Claim C4, witness: the universal part of `C4_divide_floor_semantics`
instantiated at `divide(7, 2)`. -/
theorem C4_witness :
    (2 : Int) ≠ 0 ∧
    maths_divide_numbers 7 2 = .value (.intVal ⌊((7 : Int) : ℚ) / ((2 : Int) : ℚ)⌋) :=
  ⟨by decide, C4_divide_floor_semantics.1 7 2 (by decide)⟩

/-- Claim C5, counterexample: `power(-2, 11)` computes `-2048`, whose
magnitude exceeds 1000, yet the tool returns it as a value instead of the
ResultTooLarge error the claim requires, because the cap tests only
`result > 1000`. -/
theorem C5_counterexample_power_neg2048 :
    maths_power_numbers (-2) 11 = .value (.intVal (-2048)) ∧ (1000 : Int) < |(-2048 : Int)| :=
  ⟨by decide, by decide⟩

/-- Claim C5 (amended): for every pair of integers with `b ≥ 0`,
`power(a, b)` returns `a ^ b` when `a ^ b ≤ 1000` and fails with the
"Result exceeds character limit" error when `a ^ b > 1000` (the cap is on
the signed value, not the magnitude); in particular `power(2, 5)` returns
`32` and `power(2, 10)` fails. -/
theorem C5_power_cap_above_1000 :
    (∀ a b : Int, 0 ≤ b →
      (a ^ b.toNat ≤ 1000 → maths_power_numbers a b = .value (.intVal (a ^ b.toNat))) ∧
      (1000 < a ^ b.toNat → maths_power_numbers a b =
        .raised ⟨"Result exceeds character limit", some "An error occurred during computation"⟩)) ∧
    maths_power_numbers 2 5 = .value (.intVal 32) ∧
    maths_power_numbers 2 10 =
      .raised ⟨"Result exceeds character limit", some "An error occurred during computation"⟩ := by
  refine ⟨fun a b hb => ⟨power_value_of_le a b hb, power_raised_of_gt a b hb⟩, by decide, by decide⟩

/-- Claim C5, witness: the universal part of `C5_power_cap_above_1000`
instantiated at `power(2, 5)`. -/
theorem C5_witness :
    (0 : Int) ≤ 5 ∧ (2 : Int) ^ (5 : Int).toNat ≤ 1000 ∧
    maths_power_numbers 2 5 = .value (.intVal ((2 : Int) ^ (5 : Int).toNat)) :=
  ⟨by decide, by decide, (C5_power_cap_above_1000.1 2 5 (by decide)).1 (by decide)⟩

/-- Claim C6: the result cap is asymmetric — it triggers only when the
computed result is strictly greater than 1000, so any in-cap result
(including large negative values such as `power(-2, 11) = -2048`) is
returned as a value, and the unused `MathsResult.validate_result` applies
the same `result > 1000` test. -/
theorem C6_cap_asymmetric :
    (∀ a b : Int, 0 ≤ b → a ^ b.toNat ≤ 1000 →
      maths_power_numbers a b = .value (.intVal (a ^ b.toNat))) ∧
    maths_power_numbers (-2) 11 = .value (.intVal (-2048)) ∧
    (∀ m : MathsResult, m.result ≤ 1000 → MathsResult.validate_result m = .ok m) := by
  refine ⟨fun a b hb h => power_value_of_le a b hb h, by decide, fun m h => ?_⟩
  simp [MathsResult.validate_result, CHARACTER_LIMIT, Int.not_lt.mpr h]

/-- Claim C6, witness: `C6_cap_asymmetric` instantiated at
`power(-2, 11)` and at a `MathsResult` holding `-2048`. -/
theorem C6_witness :
    ((0 : Int) ≤ 11 ∧ (-2 : Int) ^ (11 : Int).toNat ≤ 1000 ∧
      maths_power_numbers (-2) 11 = .value (.intVal ((-2 : Int) ^ (11 : Int).toNat))) ∧
    ((-2048 : Int) ≤ 1000 ∧
      MathsResult.validate_result ⟨-2048, "power"⟩ = .ok ⟨-2048, "power"⟩) :=
  ⟨⟨by decide, by decide, C6_cap_asymmetric.1 (-2) 11 (by decide) (by decide)⟩,
    ⟨by decide, C6_cap_asymmetric.2.2 ⟨-2048, "power"⟩ (by decide)⟩⟩

/-- Claim C7: for every operation name other than `"add"`, `"subtract"`,
`"multiply"` and `"divide"`, the evaluator `_make_api_request` fails with
the "Unknown operation" error and computes no value. -/
theorem C7_unknown_operation :
    ∀ (op : String) (a b : Int),
      op ≠ "add" → op ≠ "subtract" → op ≠ "multiply" → op ≠ "divide" →
      _make_api_request op a b = .error ⟨"ValueError", "Unknown operation"⟩ := by
  intro op a b h1 h2 h3 h4
  simp [_make_api_request, h1, h2, h3, h4]

/-- Claim C7, witness: `C7_unknown_operation` instantiated at the name
`"power"`, which the evaluator does not handle. -/
theorem C7_witness :
    ("power" : String) ≠ "add" ∧ ("power" : String) ≠ "subtract" ∧
    ("power" : String) ≠ "multiply" ∧ ("power" : String) ≠ "divide" ∧
    _make_api_request "power" 2 10 = .error ⟨"ValueError", "Unknown operation"⟩ :=
  ⟨by decide, by decide, by decide, by decide,
    C7_unknown_operation "power" 2 10 (by decide) (by decide) (by decide) (by decide)⟩

/-- Claim C9: every tool invocation is deterministic and stateless — the
outcome is a function of the tool name and the two operands alone, so two
invocations with identical inputs yield identical outputs. -/
theorem C9_deterministic_stateless :
    ∀ (t t' : ToolName) (a a' b b' : Int),
      t = t' → a = a' → b = b' → invokeTool t a b = invokeTool t' a' b' := by
  intro t t' a a' b b' ht ha hb
  subst ht; subst ha; subst hb
  rfl

/-- Claim C9, witness: `C9_deterministic_stateless` instantiated at two
identical `add(1, 2)` invocations. -/
theorem C9_witness :
    ToolName.add = ToolName.add ∧ (1 : Int) = 1 ∧ (2 : Int) = 2 ∧
    invokeTool ToolName.add 1 2 = invokeTool ToolName.add 1 2 :=
  ⟨rfl, rfl, rfl, C9_deterministic_stateless ToolName.add ToolName.add 1 1 2 2 rfl rfl rfl⟩

/-- Claim C10: negative exponents are not rejected by `power`:
`power(2, -1)` returns the non-integer float `0.5` (no integer equals that
value), and `power(0, -1)` fails with
CPython's ZeroDivisionError for a zero base and negative exponent — in
neither case is an InvalidOperand error produced. -/
theorem C10_negative_exponent_behavior :
    maths_power_numbers 2 (-1) = .value (.floatVal (1 / 2)) ∧
    (¬ ∃ n : ℤ, (1 / 2 : ℚ) = (n : ℚ)) ∧
    maths_power_numbers 0 (-1) =
      .raised ⟨"0.0 cannot be raised to a negative power", some "An error occurred during computation"⟩ := by
  refine ⟨?_, ?_, by decide⟩
  · simp [maths_power_numbers, pyPow, PyNumber.gtLimit, CHARACTER_LIMIT]
    norm_num
  · rintro ⟨n, hn⟩
    have h : (1 : ℤ) = n * 2 := by
      field_simp at hn
      exact_mod_cast hn
    omega

